import Mathlib

/-
Verification development for the PIT ID badge application bot (main.py).

The bot drives a browser through a fixed pipeline:
  login → navigate_to_application_management → initiate_new_application →
  fill_duplicate_check → fill_application_form (with submit flag) →
  mark_badge_request_sent (repository mutation).

Pure data transformations (format_applicant_for_bot) are embedded directly.
Browser-dependent stages are embedded as functions over explicit "world"
records that fix, for one run, the observable behaviour of the portal page
(which elements are visible, which calls raise, what text elements carry);
each Python function becomes a Lean function from its world to its returned
value together with a trace of externally observable events (browser launch,
stage entry, submit click, screenshots, repository mutations).  Python
exceptions are modelled with Except; an `Except.error` escaping a function
models an uncaught exception propagating out of it.
-/

namespace PitBot

/-- Python `s.strip()` as used on element text in main.py: whitespace
removed from both ends. -/
def pyStrip (s : String) : String :=
  String.mk (((s.data.dropWhile Char.isWhitespace).reverse.dropWhile Char.isWhitespace).reverse)

/-- Does `hay` start with `needle`?  Helper for the substring test. -/
def listStartsWith : List Char → List Char → Bool
  | [], _ => true
  | _ :: _, [] => false
  | a :: as, b :: bs => a == b && listStartsWith as bs

/-- Does the haystack contain `needle` as a contiguous run?  Helper for the
Python `needle in hay` substring test. -/
def listHasSub (needle : List Char) : List Char → Bool
  | [] => needle.isEmpty
  | c :: bs => listStartsWith needle (c :: bs) || listHasSub needle bs

/-- Python `needle in hay` on strings (substring containment), used by
main.py for error markers, page-content markers and the checkbox class. -/
def strContains (needle hay : String) : Bool := listHasSub needle.data hay.data

/-- main.py:93 — `"".join(c for c in phone_raw if c.isdigit())`. -/
def normalize_phone (s : String) : String := String.mk (s.data.filter Char.isDigit)

/-- Python `s.split("-")` (main.py:87): split at every dash, empty groups
kept, result always non-empty. -/
def splitDash : List Char → List (List Char)
  | [] => [[]]
  | c :: rest =>
    if c = '-' then [] :: splitDash rest
    else
      match splitDash rest with
      | g :: gs => (c :: g) :: gs
      | [] => [[c]]

/-- main.py:85-90 — the date-of-birth branch of format_applicant_for_bot.
`Except.error ()` models the uncaught IndexError raised by `parts[1]` /
`parts[2]` when the split yields fewer than three groups. -/
def format_dob (dob_raw : String) : Except Unit String :=
  if dob_raw.data ≠ [] ∧ '-' ∈ dob_raw.data then
    match splitDash dob_raw.data with
    | p0 :: p1 :: p2 :: _ => Except.ok (String.mk (p1 ++ '/' :: p2 ++ '/' :: p0))
    | _ => Except.error ()
  else Except.ok dob_raw

/-- A row of the `new_hire_submissions` table as read by
format_applicant_for_bot; fields the code guards against `None` are
`Option String`. -/
structure Record where
  id : String
  first_name : String
  last_name : String
  middle_name : Option String
  date_of_birth : Option String
  ssn_last_4 : String
  applicant_email : String
  applicant_phone : Option String
deriving DecidableEq, Repr

/-- The dictionary produced by format_applicant_for_bot (main.py:95-104). -/
structure Applicant where
  first_name : String
  last_name : String
  middle_name : String
  dob : String
  ssn4 : String
  email : String
  phone : String
  submission_id : String
deriving DecidableEq, Repr

/-- main.py:83-104 — format_applicant_for_bot.  Raises (Except.error) only
through the date-of-birth reformatting. -/
def format_applicant_for_bot (rec : Record) : Except Unit Applicant :=
  match format_dob (rec.date_of_birth.getD "") with
  | Except.error e => Except.error e
  | Except.ok dob_formatted =>
    Except.ok
      { first_name := rec.first_name
        last_name := rec.last_name
        middle_name := rec.middle_name.getD ""
        dob := dob_formatted
        ssn4 := rec.ssn_last_4
        email := rec.applicant_email
        phone := normalize_phone (rec.applicant_phone.getD "")
        submission_id := rec.id }

deriving instance DecidableEq for Except

/-- Python exception classes relevant to the embedded control flow. -/
inductive PyError where
  | valueError
  | playwrightError
deriving DecidableEq, Repr

/-- The environment variables read by login (main.py:136-137). -/
structure Env where
  pitid_username : Option String
  pitid_password : Option String
deriving DecidableEq, Repr

/-- Python truthiness of `os.getenv(...)`: `None` and `""` are falsy. -/
def truthy : Option String → Bool
  | none => false
  | some s => !(s == "")

/-- Observable portal behaviour during one call of login (main.py:134-186).
`gotoRaises` / `signInClickRaises` cover the calls at lines 143-149 that sit
outside every try block; `usernameStepRaises` covers the try at lines
151-162 whose exception is swallowed; `passwordStepRaises` the try at lines
164-174 which returns False; `dashboardReached` / `urlHasAlert` the final
URL wait and its fallback. -/
structure LoginWorld where
  gotoRaises : Bool
  signInClickRaises : Bool
  usernameStepRaises : Bool
  passwordStepRaises : Bool
  dashboardReached : Bool
  urlHasAlert : Bool
deriving DecidableEq, Repr

/-- main.py:134-186 — login.  `Except.error` models an exception escaping
the function: the ValueError for missing credentials (lines 139-140) and
any playwright failure in the un-guarded navigation / sign-in-click section
(lines 143-149).  The username-step try swallows its exception; the
password-step try converts its exception into `return False`. -/
def login (env : Env) (w : LoginWorld) : Except PyError Bool :=
  if !(truthy env.pitid_username) || !(truthy env.pitid_password) then
    Except.error PyError.valueError
  else if w.gotoRaises then Except.error PyError.playwrightError
  else if w.signInClickRaises then Except.error PyError.playwrightError
  else if w.passwordStepRaises then Except.ok false
  else if w.dashboardReached then Except.ok true
  else if w.urlHasAlert then Except.ok true
  else Except.ok false

/-- The three terminal code paths of the post-submit section of
fill_application_form (main.py:644-724), distinguished by their log lines
and screenshot artifacts. -/
inductive SubmitOutcome where
  | failedSubmission
  | submittedConfirmed
  | ambiguousAssumedSuccess
deriving DecidableEq, Repr

/-- What fill_application_form returns to its caller for each post-submit
path: only the explicit-error path returns False (main.py:669-670,
714-724). -/
def submitOutcomeBool : SubmitOutcome → Bool
  | SubmitOutcome.failedSubmission => false
  | SubmitOutcome.submittedConfirmed => true
  | SubmitOutcome.ambiguousAssumedSuccess => true

/-- The page state observed after the submit click (main.py:644-712).
`errorText` / `successText` hold, per matched selector in order, the inner
text of the element when it is visible (`none` = not visible, or the
locator call raised and the loop continued). -/
structure PostSubmitPage where
  errorText : List (Option String)
  successText : List (Option String)
  content : String
  submitButtonVisible : Bool
deriving DecidableEq, Repr

/-- main.py:659-661 — a visible error element counts only when its stripped
text is non-empty and longer than 5 characters. -/
def qualifying_error : Option String → Bool
  | none => false
  | some t => !(pyStrip t == "") && decide (5 < (pyStrip t).length)

/-- main.py:654-667 — the error-selector loop sets error_found as soon as
one visible element qualifies. -/
def error_found (p : PostSubmitPage) : Bool :=
  p.errorText.any qualifying_error

/-- main.py:681-712 — success_found: a visible success element with
non-empty stripped text, or a landing-page marker in the page content, or
the submit button no longer visible. -/
def success_signal (p : PostSubmitPage) : Bool :=
  p.successText.any (fun o =>
    match o with
    | none => false
    | some t => !(pyStrip t == ""))
  || strContains "Initiate a New Badge" p.content
  || strContains "Application Management" p.content
  || !p.submitButtonVisible

/-- main.py:644-724 — the outcome classifier run after the submit click, in
the code's order: qualifying error text wins (screenshot submit_error.png,
return False); otherwise any success signal gives the confirmed path;
otherwise the ambiguous path takes screenshot submit_uncertain.png and is
treated as success. -/
def classify_submit_outcome (p : PostSubmitPage) : SubmitOutcome × List String :=
  if error_found p then (SubmitOutcome.failedSubmission, ["submit_error.png"])
  else if success_signal p then (SubmitOutcome.submittedConfirmed, [])
  else (SubmitOutcome.ambiguousAssumedSuccess, ["submit_uncertain.png"])

/-- Result of the post-tier checkbox verification (main.py:621-632):
verified-checked, warned-unchecked (screenshot taken), or the re-read
itself raised and the bare `except: pass` swallowed it. -/
inductive CheckboxReport where
  | verifiedChecked
  | warnedUnchecked
  | readFailed
deriving DecidableEq, Repr

/-- Externally observable events of one run, in order of occurrence. -/
inductive Event where
  | browserLaunched
  | loginAttempted
  | navigationAttempted
  | initiateAttempted
  | duplicateCheckAttempted
  | formFillAttempted
  | submitClicked
  | screenshot (path : String)
  | markSent (id : String)
  | browserClosed
deriving DecidableEq, Repr

/-- main.py:621-632 — after the five click tiers, re-read the checkbox's
class attribute.  Input: `Except.error ()` when the locator/get_attribute
call raises (swallowed by `except: pass`); `Except.ok c` the attribute
value, `none` mapped to `""` by `or ""`.  Only the unchecked branch takes
the checkbox_not_checked.png screenshot. -/
def checkbox_verify (r : Except Unit (Option String)) : CheckboxReport × List Event :=
  match r with
  | Except.error _ => (CheckboxReport.readFailed, [])
  | Except.ok c =>
    if strContains "mat-checkbox-checked" (c.getD "") then
      (CheckboxReport.verifiedChecked, [])
    else
      (CheckboxReport.warnedUnchecked, [Event.screenshot "checkbox_not_checked.png"])

/-- Observable page behaviour during fill_application_form
(main.py:407-731): whether the form heading appears within its timeout
(line 412, outside no try: a timeout is caught by the outer handler and
returns False), the checkbox class re-read, whether the submit click
raises, and the post-submit page state. -/
structure FormWorld where
  headingVisible : Bool
  readClass : Except Unit (Option String)
  submitClickRaises : Bool
  postSubmit : PostSubmitPage
deriving DecidableEq, Repr

/-- main.py:407-731 — fill_application_form.  Field fills and autocomplete
calls swallow their own failures and cannot change the result; the
checkbox tiers only affect logging, so only the post-tier verification is
traced.  Returns the boolean handed to run_application plus the event
trace (screenshots, submit click). -/
def fill_application_form (w : FormWorld) (submit : Bool) : Bool × List Event :=
  if !w.headingVisible then (false, [])
  else
    let cb := checkbox_verify w.readClass
    let pre := Event.screenshot "before_checkbox.png" :: cb.2
    if submit then
      if w.submitClickRaises then (false, pre)
      else
        let cls := classify_submit_outcome w.postSubmit
        (submitOutcomeBool cls.1, pre ++ [Event.submitClicked] ++ cls.2.map Event.screenshot)
    else (true, pre)

/-- Observable world for one full run_application call: the login world,
the boolean results of the navigation / initiate / duplicate-check stages
(each catches its own exceptions and returns a bool, main.py:192-307), and
the form world. -/
structure RunWorld where
  loginW : LoginWorld
  navOk : Bool
  initOk : Bool
  dupOk : Bool
  formW : FormWorld
deriving DecidableEq, Repr

/-- main.py:738-779 — run_application.  The browser is launched before the
try block; the `except Exception` converts any exception escaping a stage
(including login's ValueError) into `return False`; `finally` closes the
browser.  Stage-entry events record which stages ran. -/
def run_application (env : Env) (w : RunWorld) (submit : Bool) : Bool × List Event :=
  let pre := [Event.browserLaunched, Event.loginAttempted]
  match login env w.loginW with
  | Except.error _ => (false, pre ++ [Event.browserClosed])
  | Except.ok false => (false, pre ++ [Event.browserClosed])
  | Except.ok true =>
    if !w.navOk then (false, pre ++ [Event.navigationAttempted, Event.browserClosed])
    else if !w.initOk then
      (false, pre ++ [Event.navigationAttempted, Event.initiateAttempted, Event.browserClosed])
    else if !w.dupOk then
      (false, pre ++ [Event.navigationAttempted, Event.initiateAttempted,
        Event.duplicateCheckAttempted, Event.browserClosed])
    else
      let f := fill_application_form w.formW submit
      (f.1, pre ++ [Event.navigationAttempted, Event.initiateAttempted,
        Event.duplicateCheckAttempted, Event.formFillAttempted] ++ f.2 ++ [Event.browserClosed])

/-- main.py:784-798 — the single-id branch of run_apply: format the record
(uncaught exception aborts before the browser opens), run the pipeline,
then markSent exactly when `success and submit`. -/
def run_apply_single (env : Env) (rec : Record) (w : RunWorld) (submit : Bool) :
    List Event × Except Unit Bool :=
  match format_applicant_for_bot rec with
  | Except.error e => ([], Except.error e)
  | Except.ok _ =>
    let r := run_application env w submit
    (r.2 ++ (if r.1 && submit then [Event.markSent rec.id] else []), Except.ok r.1)

/-- The success/failure counts printed by the batch summary line
(main.py:829). -/
structure BatchSummary where
  success : Nat
  failed : Nat
deriving DecidableEq, Repr

/-- main.py:808-829 — the batch loop of run_apply.  Each iteration formats
the record (an uncaught formatting exception aborts the whole loop), runs
the pipeline, and then: `if success and submit` markSent and count a
success; `elif not success` count a failure; otherwise count nothing. -/
def run_apply_batch_go (env : Env) (submit : Bool) :
    List (Record × RunWorld) → Nat → Nat → List Event × Except Unit BatchSummary
  | [], s, f => ([], Except.ok ⟨s, f⟩)
  | (rec, w) :: rest, s, f =>
    match format_applicant_for_bot rec with
    | Except.error e => ([], Except.error e)
    | Except.ok _ =>
      let r := run_application env w submit
      let here := r.2 ++ (if r.1 && submit then [Event.markSent rec.id] else [])
      let s2 := if r.1 && submit then s + 1 else s
      let f2 := if r.1 && submit then f else if !r.1 then f + 1 else f
      let rest2 := run_apply_batch_go env submit rest s2 f2
      (here ++ rest2.1, rest2.2)

/-- main.py:800-829 — the `--all` branch of run_apply, starting both
counters at zero. -/
def run_apply_batch (env : Env) (runs : List (Record × RunWorld)) (submit : Bool) :
    List Event × Except Unit BatchSummary :=
  run_apply_batch_go env submit runs 0 0

/-- Fixture: both portal credentials present. -/
def envGood : Env := ⟨some "badger@atlas", some "hunter2"⟩

/-- Fixture: password unset in the environment. -/
def envNoPass : Env := ⟨some "badger@atlas", none⟩

/-- Fixture: a login run where every step succeeds. -/
def lwGood : LoginWorld := ⟨false, false, false, false, true, false⟩

/-- Fixture: the login form never appears — both the username wait and the
password wait time out (the password-step timeout makes login return
False). -/
def lwPwFail : LoginWorld := ⟨false, false, true, true, false, false⟩

/-- Fixture: the SIGN IN TO MYPITID click (main.py:146, outside any try)
times out. -/
def lwSignInFail : LoginWorld := ⟨false, true, false, false, false, false⟩

/-- Fixture: post-submit page with no error and no success signal. -/
def noSignalPage : PostSubmitPage :=
  ⟨[none, none, none, none, none, none], [none, none, none, none, none],
   "Badge Application Form", true⟩

/-- Fixture: post-submit page with a visible success banner only. -/
def confirmedPage : PostSubmitPage :=
  ⟨[none, none, none, none, none, none],
   [some "Application has been submitted successfully", none, none, none, none],
   "Badge Application Form", true⟩

/-- Fixture: post-submit page where an explicit error text, a success
banner, a landing-page marker and a vanished submit button are all present
at once. -/
def errorAndSuccessPage : PostSubmitPage :=
  ⟨[some "Email is already registered", none, none, none, none, none],
   [some "Application has been submitted successfully", none, none, none, none],
   "Application Management", false⟩

/-- Fixture: form world whose submission is confirmed by a banner. -/
def fwGood : FormWorld :=
  ⟨true, Except.ok (some "mat-checkbox mat-checkbox-checked"), false, confirmedPage⟩

/-- Fixture: form world whose post-submit page shows no signal at all. -/
def fwAmb : FormWorld :=
  ⟨true, Except.ok (some "mat-checkbox mat-checkbox-checked"), false, noSignalPage⟩

/-- Fixture: a fully successful pipeline world. -/
def rwGood : RunWorld := ⟨lwGood, true, true, true, fwGood⟩

/-- Fixture: successful pipeline whose submission outcome is ambiguous. -/
def rwAmb : RunWorld := ⟨lwGood, true, true, true, fwAmb⟩

/-- Fixture: pipeline failing at the navigation stage. -/
def rwNavFail : RunWorld := ⟨lwGood, false, true, true, fwGood⟩

/-- Fixture: a well-formed applicant record. -/
def recA1 : Record :=
  ⟨"A1", "Ada", "Lovelace", none, some "1990-01-07", "1234",
   "ada@example.com", some "(412) 555-1234"⟩

/-- Fixture: a second well-formed applicant record. -/
def recA3 : Record :=
  ⟨"A3", "Grace", "Hopper", none, some "1985-12-09", "5678",
   "grace@example.com", some "412-555-9876"⟩

/-- Fixture: a record whose date_of_birth has a dash but only two groups,
so format_applicant_for_bot hits the IndexError path. -/
def badRec : Record :=
  ⟨"B2", "Bad", "Dob", none, some "1990-01", "9999",
   "bad@example.com", some "4125550000"⟩

/-- Fixture: the applicant dictionary format_applicant_for_bot builds from
recA1. -/
def appA1 : Applicant :=
  ⟨"Ada", "Lovelace", "", "01/07/1990", "1234", "ada@example.com", "4125551234", "A1"⟩

/-- Fixture: the applicant dictionary format_applicant_for_bot builds from
recA3. -/
def appA3 : Applicant :=
  ⟨"Grace", "Hopper", "", "12/09/1985", "5678", "grace@example.com", "4125559876", "A3"⟩

/-- Splitting never produces the empty list of groups. -/
theorem splitDash_ne_nil (l : List Char) : splitDash l ≠ [] := by
  induction l with
  | nil => simp [splitDash]
  | cons c rest ih =>
    unfold splitDash
    by_cases h : c = '-'
    · simp [h]
    · simp only [h, if_false]
      cases hr : splitDash rest with
      | nil => simp
      | cons g gs => simp

/-- A dash-free character list splits into the single group it is. -/
theorem splitDash_no_dash (l : List Char) (h : ∀ c ∈ l, c ≠ '-') : splitDash l = [l] := by
  induction l with
  | nil => rfl
  | cons c rest ih =>
    have hc : c ≠ '-' := h c (List.mem_cons_self c rest)
    have hr : splitDash rest = [rest] := ih (fun x hx => h x (List.mem_cons_of_mem c hx))
    unfold splitDash
    rw [if_neg hc, hr]

/-- Splitting at the first dash peels off the leading dash-free group. -/
theorem splitDash_append (a rest : List Char) (h : ∀ c ∈ a, c ≠ '-') :
    splitDash (a ++ '-' :: rest) = a :: splitDash rest := by
  induction a with
  | nil => simp [splitDash]
  | cons c as ih =>
    have hc : c ≠ '-' := h c (List.mem_cons_self c as)
    have ha : splitDash (as ++ '-' :: rest) = as :: splitDash rest :=
      ih (fun x hx => h x (List.mem_cons_of_mem c hx))
    simp only [List.cons_append]
    show (if c = '-' then [] :: splitDash (as ++ '-' :: rest)
      else
        match splitDash (as ++ '-' :: rest) with
        | g :: gs => (c :: g) :: gs
        | [] => [[c]]) = (c :: as) :: splitDash rest
    rw [if_neg hc, ha]

/-- C6: phone normalization returns exactly the subsequence of decimal-digit
characters of the input in order (a sublist, consisting of digits, keeping
every digit occurrence), and it is idempotent:
normalize(normalize(x)) = normalize(x).  (main.py:92-93) -/
theorem phone_normalization_digits_idempotent (x : String) :
    ((normalize_phone x).data).Sublist x.data ∧
    (∀ c ∈ (normalize_phone x).data, c.isDigit = true) ∧
    (∀ c : Char, c.isDigit = true → (normalize_phone x).data.count c = x.data.count c) ∧
    normalize_phone (normalize_phone x) = normalize_phone x := by
  refine ⟨List.filter_sublist x.data, ?_, ?_, ?_⟩
  · intro c hc
    exact (List.mem_filter.mp hc).2
  · intro c hc
    exact List.count_filter hc
  · have h : (x.data.filter Char.isDigit).filter Char.isDigit = x.data.filter Char.isDigit :=
      List.filter_eq_self.mpr (fun a ha => (List.mem_filter.mp ha).2)
    show String.mk ((x.data.filter Char.isDigit).filter Char.isDigit) = _
    rw [h]
    rfl

/-- C6 witness: phone normalization on a formatted phone number keeps
exactly the digits and is idempotent there. -/
theorem phone_normalization_digits_idempotent_witness :
    normalize_phone "(412) 555-1234" = "4125551234" ∧
    (normalize_phone "(412) 555-1234").data.count '5'
      = "(412) 555-1234".data.count '5' ∧
    normalize_phone (normalize_phone "(412) 555-1234") = normalize_phone "(412) 555-1234" :=
  ⟨by decide,
   (phone_normalization_digits_idempotent "(412) 555-1234").2.2.1 '5' (by decide),
   (phone_normalization_digits_idempotent "(412) 555-1234").2.2.2⟩

/-- When the split of a date string yields at least three groups, the
formatter returns month/day/year assembled from the second, third and
first group. -/
theorem format_dob_of_split (s : String) (p0 p1 p2 : List Char) (rest : List (List Char))
    (hne : s.data ≠ []) (hdash : '-' ∈ s.data)
    (hsplit : splitDash s.data = p0 :: p1 :: p2 :: rest) :
    format_dob s = Except.ok (String.mk (p1 ++ '/' :: p2 ++ '/' :: p0)) := by
  unfold format_dob
  rw [if_pos ⟨hne, hdash⟩, hsplit]

/-- C7: for a date-of-birth string of the form Y-M-D with three
dash-separated groups, the formatter produces M/D/Y with the three groups
copied character-for-character (no padding change), and a string without a
dash passes through unchanged.  (main.py:85-90) -/
theorem dob_reformat_groups_verbatim :
    (∀ y m d : String,
      (∀ c ∈ y.data, c ≠ '-') → (∀ c ∈ m.data, c ≠ '-') → (∀ c ∈ d.data, c ≠ '-') →
      format_dob (y ++ "-" ++ m ++ "-" ++ d) = Except.ok (m ++ "/" ++ d ++ "/" ++ y)) ∧
    (∀ s : String, (∀ c ∈ s.data, c ≠ '-') → format_dob s = Except.ok s) := by
  constructor
  · intro y m d hy hm hd
    have h1 : (y ++ "-" ++ m ++ "-" ++ d).data
        = y.data ++ '-' :: (m.data ++ '-' :: d.data) := by
      show (((y.data ++ ['-']) ++ m.data) ++ ['-']) ++ d.data = _
      simp
    have h2 : splitDash (y ++ "-" ++ m ++ "-" ++ d).data = [y.data, m.data, d.data] := by
      rw [h1, splitDash_append _ _ hy, splitDash_append _ _ hm, splitDash_no_dash _ hd]
    have hcond : (y ++ "-" ++ m ++ "-" ++ d).data ≠ [] ∧ '-' ∈ (y ++ "-" ++ m ++ "-" ++ d).data := by
      rw [h1]
      constructor
      · simp
      · simp
    have h3 : m.data ++ '/' :: d.data ++ '/' :: y.data
        = (m ++ "/" ++ d ++ "/" ++ y).data := by
      show _ = (((m.data ++ ['/']) ++ d.data) ++ ['/']) ++ y.data
      simp
    calc format_dob (y ++ "-" ++ m ++ "-" ++ d)
        = Except.ok (String.mk (m.data ++ '/' :: d.data ++ '/' :: y.data)) :=
          format_dob_of_split _ _ _ _ _ hcond.1 hcond.2 h2
      _ = Except.ok (m ++ "/" ++ d ++ "/" ++ y) := by rw [h3]
  · intro s hs
    unfold format_dob
    rw [if_neg]
    rintro ⟨h1, h2⟩
    exact hs '-' h2 rfl

/-- C7 witness: a concrete zero-padded and a concrete non-padded group are
copied verbatim, and a dash-free value passes through. -/
theorem dob_reformat_groups_verbatim_witness :
    format_dob ("1990" ++ "-" ++ "01" ++ "-" ++ "07")
      = Except.ok ("01" ++ "/" ++ "07" ++ "/" ++ "1990") ∧
    format_dob "05/06/1990" = Except.ok "05/06/1990" :=
  ⟨dob_reformat_groups_verbatim.1 "1990" "01" "07" (by decide) (by decide) (by decide),
   dob_reformat_groups_verbatim.2 "05/06/1990" (by decide)⟩

/-- C10: a record whose date_of_birth contains a dash but fewer than three
groups ("1990-01") makes format_applicant_for_bot raise an uncaught
IndexError; the single-id run aborts with no event at all (no browser
session), and in a batch of three the abort loses the remaining
applicants: the first applicant was fully processed and marked, the bad
and the following applicant produce no events, only one browser session
ever opened, and the run ends in the propagated exception.
(main.py:85-90, 810-818) -/
theorem malformed_dob_aborts_batch :
    format_applicant_for_bot badRec = Except.error () ∧
    run_apply_single envGood badRec rwGood true = ([], Except.error ()) ∧
    (run_apply_batch envGood [(recA1, rwGood), (badRec, rwGood), (recA3, rwGood)] true).2
      = Except.error () ∧
    Event.markSent "A1"
      ∈ (run_apply_batch envGood [(recA1, rwGood), (badRec, rwGood), (recA3, rwGood)] true).1 ∧
    Event.markSent "B2"
      ∉ (run_apply_batch envGood [(recA1, rwGood), (badRec, rwGood), (recA3, rwGood)] true).1 ∧
    Event.markSent "A3"
      ∉ (run_apply_batch envGood [(recA1, rwGood), (badRec, rwGood), (recA3, rwGood)] true).1 ∧
    (run_apply_batch envGood [(recA1, rwGood), (badRec, rwGood), (recA3, rwGood)] true).1.count
      Event.browserLaunched = 1 := by
  decide

/-- The post-tier checkbox verification emits at most the
checkbox_not_checked screenshot. -/
theorem checkbox_verify_events (r : Except Unit (Option String)) :
    (checkbox_verify r).2 = [] ∨
      (checkbox_verify r).2 = [Event.screenshot "checkbox_not_checked.png"] := by
  unfold checkbox_verify
  cases r with
  | error e => simp
  | ok c =>
    by_cases h : strContains "mat-checkbox-checked" (c.getD "") = true <;> simp [h]

/-- The classifier emits exactly one of the three screenshot lists. -/
theorem classify_screens (p : PostSubmitPage) :
    (classify_submit_outcome p).2 = ["submit_error.png"] ∨
      (classify_submit_outcome p).2 = [] ∨
      (classify_submit_outcome p).2 = ["submit_uncertain.png"] := by
  unfold classify_submit_outcome
  split
  · simp
  · split <;> simp

/-- fill_application_form never records a repository mutation. -/
theorem fill_no_markSent (w : FormWorld) (submit : Bool) (id : String) :
    Event.markSent id ∉ (fill_application_form w submit).2 := by
  intro hmem
  cases hv : w.headingVisible <;> cases submit <;>
    cases hs : w.submitClickRaises <;>
    rcases checkbox_verify_events w.readClass with hcb | hcb <;>
    rcases classify_screens w.postSubmit with hcl | hcl | hcl <;>
    simp_all [fill_application_form]

/-- Without the submit flag, fill_application_form never clicks Submit. -/
theorem fill_no_submitClicked_dry (w : FormWorld) :
    Event.submitClicked ∉ (fill_application_form w false).2 := by
  intro hmem
  cases hv : w.headingVisible <;>
    rcases checkbox_verify_events w.readClass with hcb | hcb <;>
    simp_all [fill_application_form]

/-- When login raises, run_application catches the exception, returns
False, and only the browser launch / login attempt / close happened. -/
theorem run_application_login_error (env : Env) (w : RunWorld) (submit : Bool) (e : PyError)
    (h : login env w.loginW = Except.error e) :
    run_application env w submit
      = (false, [Event.browserLaunched, Event.loginAttempted, Event.browserClosed]) := by
  unfold run_application
  rw [h]
  rfl

/-- When login returns False, run_application stops after the login
stage. -/
theorem run_application_login_false (env : Env) (w : RunWorld) (submit : Bool)
    (h : login env w.loginW = Except.ok false) :
    run_application env w submit
      = (false, [Event.browserLaunched, Event.loginAttempted, Event.browserClosed]) := by
  unfold run_application
  rw [h]
  rfl

/-- run_application itself never records a repository mutation. -/
theorem run_application_no_markSent (env : Env) (w : RunWorld) (submit : Bool) (id : String) :
    Event.markSent id ∉ (run_application env w submit).2 := by
  intro hmem
  unfold run_application at hmem
  rcases hl : login env w.loginW with e | b
  · rw [hl] at hmem
    simp at hmem
  · rw [hl] at hmem
    cases b
    · simp at hmem
    · cases hn : w.navOk <;> cases hi : w.initOk <;> cases hd : w.dupOk <;>
        simp_all [fill_no_markSent]

/-- Without the submit flag, a whole run never clicks Submit. -/
theorem run_application_no_submitClicked_dry (env : Env) (w : RunWorld) :
    Event.submitClicked ∉ (run_application env w false).2 := by
  intro hmem
  unfold run_application at hmem
  rcases hl : login env w.loginW with e | b
  · rw [hl] at hmem
    simp at hmem
  · rw [hl] at hmem
    cases b
    · simp at hmem
    · cases hn : w.navOk <;> cases hi : w.initOk <;> cases hd : w.dupOk <;>
        simp_all [fill_no_submitClicked_dry]

/-- C1: whenever a known error pattern matches with stripped text longer
than the 5-character threshold, the classifier reports the failed path
(with the submit_error.png artifact) and fill_application_form returns
False to its caller, no matter which success signals are present at the
same time.  (main.py:644-724) -/
theorem error_text_overrides_success_heuristics (p : PostSubmitPage)
    (h : error_found p = true) :
    classify_submit_outcome p = (SubmitOutcome.failedSubmission, ["submit_error.png"]) ∧
    (∀ w : FormWorld, w.headingVisible = true → w.submitClickRaises = false →
      w.postSubmit = p → (fill_application_form w true).1 = false) := by
  constructor
  · unfold classify_submit_outcome
    rw [if_pos h]
  · intro w h1 h2 h3
    simp [fill_application_form, h1, h2, h3, classify_submit_outcome, h, submitOutcomeBool]

/-- C1 witness: a page carrying a qualifying error text together with a
success banner, a landing-page marker and a hidden submit button is still
classified as failed. -/
theorem error_text_overrides_success_heuristics_witness :
    error_found errorAndSuccessPage = true ∧
    success_signal errorAndSuccessPage = true ∧
    classify_submit_outcome errorAndSuccessPage
      = (SubmitOutcome.failedSubmission, ["submit_error.png"]) ∧
    (fill_application_form
      ⟨true, Except.ok (some "mat-checkbox mat-checkbox-checked"), false, errorAndSuccessPage⟩
      true).1 = false :=
  ⟨by decide, by decide,
   (error_text_overrides_success_heuristics errorAndSuccessPage (by decide)).1,
   (error_text_overrides_success_heuristics errorAndSuccessPage (by decide)).2 _ rfl rfl rfl⟩

/-- C5 counterexample: on a post-submit page with no signal at all the
classifier takes the ambiguous path with its screenshot, yet
fill_application_form hands its caller exactly the same value as for a
banner-confirmed submission, run_application succeeds identically, and the
repository is marked identically — the caller cannot distinguish confirmed
from assumed success.  (main.py:714-724, 738-779, 792-796) -/
theorem ambiguous_result_not_distinct_counterexample :
    classify_submit_outcome noSignalPage
      = (SubmitOutcome.ambiguousAssumedSuccess, ["submit_uncertain.png"]) ∧
    classify_submit_outcome confirmedPage = (SubmitOutcome.submittedConfirmed, []) ∧
    (fill_application_form fwAmb true).1 = (fill_application_form fwGood true).1 ∧
    (run_application envGood rwAmb true).1 = true ∧
    (run_application envGood rwGood true).1 = true ∧
    (run_apply_single envGood recA1 rwAmb true).1.count (Event.markSent "A1")
      = (run_apply_single envGood recA1 rwGood true).1.count (Event.markSent "A1") := by
  decide

/-- C5 (amended): with no explicit error and no success signal after the
submit click, the classifier captures the submit_uncertain.png diagnostic
screenshot and follows the ambiguous path, but the boolean it hands back to
the caller is the same True as for a confirmed submission; the ambiguity is
observable only in the artifact and log, not in the result value. -/
theorem ambiguous_assumed_success_screenshot_same_result (p : PostSubmitPage)
    (he : error_found p = false) (hs : success_signal p = false) :
    classify_submit_outcome p
      = (SubmitOutcome.ambiguousAssumedSuccess, ["submit_uncertain.png"]) ∧
    submitOutcomeBool SubmitOutcome.ambiguousAssumedSuccess
      = submitOutcomeBool SubmitOutcome.submittedConfirmed := by
  constructor
  · simp [classify_submit_outcome, he, hs]
  · rfl

/-- C5 (amended) witness: the no-signal fixture page takes the ambiguous
path with its screenshot. -/
theorem ambiguous_assumed_success_screenshot_same_result_witness :
    classify_submit_outcome noSignalPage
      = (SubmitOutcome.ambiguousAssumedSuccess, ["submit_uncertain.png"]) ∧
    submitOutcomeBool SubmitOutcome.ambiguousAssumedSuccess
      = submitOutcomeBool SubmitOutcome.submittedConfirmed :=
  ambiguous_assumed_success_screenshot_same_result noSignalPage (by decide) (by decide)

/-- C8 counterexample: when the post-tier class re-read itself raises (the
bare `except: pass` at main.py:631-632), the checkbox state is unverified
(not confirmed) and yet no diagnostic screenshot is captured anywhere in
the form trace, while the pipeline still continues to a success — refuting
"when unverified, it captures a diagnostic screenshot". -/
theorem checkbox_unverified_without_screenshot_counterexample :
    checkbox_verify (Except.error ()) = (CheckboxReport.readFailed, []) ∧
    CheckboxReport.readFailed ≠ CheckboxReport.verifiedChecked ∧
    (fill_application_form ⟨true, Except.error (), false, confirmedPage⟩ true).1 = true ∧
    (fill_application_form ⟨true, Except.error (), false, confirmedPage⟩ true).2.count
      (Event.screenshot "checkbox_not_checked.png") = 0 := by
  decide

/-- C8 (amended): the confirmer reports a confirmed state exactly when the
post-tier class read succeeds and carries the checked marker; when the read
succeeds without the marker it captures the checkbox_not_checked.png
screenshot; when the read raises it proceeds with neither confirmation nor
artifact; and in every case the value fill_application_form returns is
independent of the checkbox verification, so an unverified checkbox never
fails the pipeline.  (main.py:530-632) -/
theorem checkbox_postcheck_amended (r : Except Unit (Option String)) :
    ((checkbox_verify r).1 = CheckboxReport.verifiedChecked ↔
      ∃ c, r = Except.ok c ∧ strContains "mat-checkbox-checked" (c.getD "") = true) ∧
    (∀ c, r = Except.ok c → strContains "mat-checkbox-checked" (c.getD "") = false →
      (checkbox_verify r).2 = [Event.screenshot "checkbox_not_checked.png"]) ∧
    (∀ (h scr : Bool) (p : PostSubmitPage) (r2 : Except Unit (Option String)) (submit : Bool),
      (fill_application_form ⟨h, r, scr, p⟩ submit).1
        = (fill_application_form ⟨h, r2, scr, p⟩ submit).1) := by
  refine ⟨?_, ?_, ?_⟩
  · cases r with
    | error e => simp [checkbox_verify]
    | ok c =>
      by_cases h : strContains "mat-checkbox-checked" (c.getD "") = true <;>
        simp [checkbox_verify, h]
  · intro c hc hfalse
    subst hc
    simp [checkbox_verify, hfalse]
  · intro h scr p r2 submit
    cases h <;> cases submit <;> cases scr <;> simp [fill_application_form]

/-- C8 (amended) witness: a checked class is confirmed; an unchecked class
read yields the screenshot. -/
theorem checkbox_postcheck_amended_witness :
    (checkbox_verify (Except.ok (some "mat-checkbox mat-checkbox-checked"))).1
      = CheckboxReport.verifiedChecked ∧
    (checkbox_verify (Except.ok (some "mat-checkbox"))).2
      = [Event.screenshot "checkbox_not_checked.png"] :=
  ⟨(checkbox_postcheck_amended (Except.ok (some "mat-checkbox mat-checkbox-checked"))).1.mpr
      ⟨some "mat-checkbox mat-checkbox-checked", rfl, by decide⟩,
   (checkbox_postcheck_amended (Except.ok (some "mat-checkbox"))).2.1
      (some "mat-checkbox") rfl (by decide)⟩

/-- Unfolding equation for the batch loop when formatting fails: the whole
loop aborts. -/
theorem batch_go_cons_error (env : Env) (submit : Bool) (rec : Record) (w : RunWorld)
    (tl : List (Record × RunWorld)) (s f : Nat) (e : Unit)
    (hfmt : format_applicant_for_bot rec = Except.error e) :
    run_apply_batch_go env submit ((rec, w) :: tl) s f = ([], Except.error e) := by
  simp only [run_apply_batch_go]
  rw [hfmt]

/-- Unfolding equation for the batch loop when formatting succeeds. -/
theorem batch_go_cons_ok (env : Env) (submit : Bool) (rec : Record) (w : RunWorld)
    (tl : List (Record × RunWorld)) (s f : Nat) (a : Applicant)
    (hfmt : format_applicant_for_bot rec = Except.ok a) :
    run_apply_batch_go env submit ((rec, w) :: tl) s f
      = (((run_application env w submit).2
            ++ (if ((run_application env w submit).1 && submit) = true
                then [Event.markSent rec.id] else []))
          ++ (run_apply_batch_go env submit tl
                (if ((run_application env w submit).1 && submit) = true then s + 1 else s)
                (if ((run_application env w submit).1 && submit) = true then f
                 else if (!(run_application env w submit).1) = true then f + 1 else f)).1,
         (run_apply_batch_go env submit tl
                (if ((run_application env w submit).1 && submit) = true then s + 1 else s)
                (if ((run_application env w submit).1 && submit) = true then f
                 else if (!(run_application env w submit).1) = true then f + 1 else f)).2) := by
  simp only [run_apply_batch_go]
  rw [hfmt]

/-- Soundness of batch marking: any markSent event in the batch trace comes
from an applicant of the list whose pipeline succeeded, with the submit
flag set. -/
theorem batch_go_markSent_sound (env : Env) (submit : Bool) (id : String) :
    ∀ (l : List (Record × RunWorld)) (s f : Nat),
      Event.markSent id ∈ (run_apply_batch_go env submit l s f).1 →
      submit = true ∧ ∃ p ∈ l, p.1.id = id ∧ (run_application env p.2 submit).1 = true := by
  intro l
  induction l with
  | nil =>
    intro s f h
    simp [run_apply_batch_go] at h
  | cons hd tl ih =>
    intro s f h
    rcases hd with ⟨rec, w⟩
    rcases hfmt : format_applicant_for_bot rec with e | a
    · rw [batch_go_cons_error env submit rec w tl s f e hfmt] at h
      simp at h
    · rw [batch_go_cons_ok env submit rec w tl s f a hfmt] at h
      rcases List.mem_append.mp h with h1 | h2
      · rcases List.mem_append.mp h1 with h3 | h4
        · exact absurd h3 (run_application_no_markSent env w submit id)
        · by_cases hc : ((run_application env w submit).1 && submit) = true
          · rw [if_pos hc] at h4
            simp only [List.mem_singleton] at h4
            injection h4 with h5
            rw [Bool.and_eq_true] at hc
            exact ⟨hc.2, (rec, w), List.mem_cons_self _ _, h5.symm, hc.1⟩
          · rw [if_neg hc] at h4
            simp at h4
      · rcases ih _ _ h2 with ⟨hsub, p, hp, hid, hsucc⟩
        exact ⟨hsub, p, List.mem_cons_of_mem _ hp, hid, hsucc⟩

/-- Completeness of batch marking (submit set, no formatting abort): every
applicant of the list whose pipeline succeeded is marked in the trace. -/
theorem batch_go_markSent_complete (env : Env) :
    ∀ (l : List (Record × RunWorld)) (s f : Nat) (rec : Record) (w : RunWorld),
      (∀ q ∈ l, ∃ b, format_applicant_for_bot q.1 = Except.ok b) →
      (rec, w) ∈ l → (run_application env w true).1 = true →
      Event.markSent rec.id ∈ (run_apply_batch_go env true l s f).1 := by
  intro l
  induction l with
  | nil =>
    intro s f rec w hall hmem hsucc
    simp at hmem
  | cons hd tl ih =>
    intro s f rec w hall hmem hsucc
    rcases hd with ⟨rec0, w0⟩
    rcases List.mem_cons.mp hmem with heq | htl
    · injection heq with e1 e2
      subst e1
      subst e2
      obtain ⟨b, hb⟩ := hall (rec, w) (List.mem_cons_self _ _)
      rw [batch_go_cons_ok env true rec w tl s f b hb]
      have hc : ((run_application env w true).1 && true) = true := by
        rw [hsucc]
        rfl
      simp [hc]
    · obtain ⟨b, hb⟩ := hall (rec0, w0) (List.mem_cons_self _ _)
      rw [batch_go_cons_ok env true rec0 w0 tl s f b hb]
      apply List.mem_append.mpr
      right
      exact ih _ _ rec w (fun q hq => hall q (List.mem_cons_of_mem _ hq)) htl hsucc

/-- When every pipeline of the list fails (and no formatting aborts), the
batch loop completes and counts every applicant as failed. -/
theorem batch_go_all_fail (env : Env) (submit : Bool) :
    ∀ (l : List (Record × RunWorld)) (s f : Nat),
      (∀ q ∈ l, ∃ b, format_applicant_for_bot q.1 = Except.ok b) →
      (∀ q ∈ l, (run_application env q.2 submit).1 = false) →
      (run_apply_batch_go env submit l s f).2 = Except.ok ⟨s, f + l.length⟩ := by
  intro l
  induction l with
  | nil =>
    intro s f _ _
    rfl
  | cons hd tl ih =>
    intro s f hall hfail
    rcases hd with ⟨rec, w⟩
    obtain ⟨b, hb⟩ := hall (rec, w) (List.mem_cons_self _ _)
    rw [batch_go_cons_ok env submit rec w tl s f b hb]
    have hf : (run_application env w submit).1 = false :=
      hfail (rec, w) (List.mem_cons_self _ _)
    have hc : ((run_application env w submit).1 && submit) = false := by
      rw [hf]
      rfl
    have hrec := ih s (f + 1) (fun q hq => hall q (List.mem_cons_of_mem _ hq))
      (fun q hq => hfail q (List.mem_cons_of_mem _ hq))
    have e1 : (if ((run_application env w submit).1 && submit) = true then s + 1 else s) = s :=
      if_neg (by rw [hc]; exact Bool.false_ne_true)
    have e2 : (if ((run_application env w submit).1 && submit) = true then f
               else if (!(run_application env w submit).1) = true then f + 1 else f) = f + 1 := by
      rw [if_neg (by rw [hc]; exact Bool.false_ne_true), if_pos (by rw [hf]; rfl)]
    have harith : f + 1 + tl.length = f + ((rec, w) :: tl).length := by
      simp only [List.length_cons]
      omega
    rw [e1, e2]
    exact hrec.trans (by rw [harith])

/-- C2 counterexample: with the password unset, login raises ValueError —
but the browser session has already opened (the event trace starts with the
launch), run_application catches the error and returns False instead of
terminating, and a batch of two applicants still opens two browser sessions
and completes with summary success:0 failed:2.  (main.py:136-140, 746-777,
808-829) -/
theorem missing_credential_not_fatal_counterexample :
    login envNoPass lwGood = Except.error PyError.valueError ∧
    run_application envNoPass rwGood true
      = (false, [Event.browserLaunched, Event.loginAttempted, Event.browserClosed]) ∧
    (run_apply_batch envNoPass [(recA1, rwGood), (recA3, rwGood)] true).2
      = Except.ok ⟨0, 2⟩ ∧
    (run_apply_batch envNoPass [(recA1, rwGood), (recA3, rwGood)] true).1.count
      Event.browserLaunched = 2 := by
  decide

/-- C2 (amended): when a portal credential is missing, login raises
ValueError — after the browser session has already been opened — and the
per-applicant handler of run_application catches it and returns False, so
a batch run is not terminated: every applicant is attempted and counted as
failed, and the repository is never mutated. -/
theorem missing_credential_caught_per_applicant (env : Env)
    (hmiss : truthy env.pitid_username = false ∨ truthy env.pitid_password = false) :
    (∀ lw : LoginWorld, login env lw = Except.error PyError.valueError) ∧
    (∀ (w : RunWorld) (submit : Bool),
      run_application env w submit
        = (false, [Event.browserLaunched, Event.loginAttempted, Event.browserClosed])) ∧
    (∀ (runs : List (Record × RunWorld)) (submit : Bool),
      (∀ q ∈ runs, ∃ b, format_applicant_for_bot q.1 = Except.ok b) →
      (run_apply_batch env runs submit).2 = Except.ok ⟨0, runs.length⟩ ∧
      ∀ id, Event.markSent id ∉ (run_apply_batch env runs submit).1) := by
  have hcond : (!(truthy env.pitid_username) || !(truthy env.pitid_password)) = true := by
    rcases hmiss with h | h <;> simp [h]
  have hlog : ∀ lw : LoginWorld, login env lw = Except.error PyError.valueError := by
    intro lw
    unfold login
    rw [if_pos hcond]
  refine ⟨hlog, ?_, ?_⟩
  · intro w submit
    exact run_application_login_error env w submit _ (hlog w.loginW)
  · intro runs submit hall
    have hfail : ∀ q ∈ runs, (run_application env q.2 submit).1 = false := by
      intro q hq
      rw [run_application_login_error env q.2 submit _ (hlog q.2.loginW)]
    constructor
    · have h := batch_go_all_fail env submit runs 0 0 hall hfail
      simpa [run_apply_batch] using h
    · intro id hmem
      rcases batch_go_markSent_sound env submit id runs 0 0 hmem with ⟨_, p, hp, _, hsucc⟩
      rw [hfail p hp] at hsucc
      exact Bool.false_ne_true hsucc

/-- C2 (amended) witness: with the password unset, login raises ValueError
and a one-applicant batch still completes with summary success:0
failed:1. -/
theorem missing_credential_caught_per_applicant_witness :
    login envNoPass lwGood = Except.error PyError.valueError ∧
    (run_apply_batch envNoPass [(recA1, rwGood)] true).2 = Except.ok ⟨0, 1⟩ :=
  ⟨(missing_credential_caught_per_applicant envNoPass (Or.inr rfl)).1 lwGood,
   ((missing_credential_caught_per_applicant envNoPass (Or.inr rfl)).2.2
      [(recA1, rwGood)] true
      (fun q hq => by
        rw [List.mem_singleton] at hq
        subst hq
        exact ⟨appA1, by decide⟩)).1⟩

/-- C9 counterexample: with both credentials present, a timeout of the
un-guarded SIGN IN TO MYPITID click (main.py:146, before any try block of
login) makes login itself raise — the exception propagates out of the
Authenticator stage instead of being caught locally, and the Orchestrator's
generic handler (not the login-failed branch) converts it to False. -/
theorem login_signin_click_raises_counterexample :
    truthy envGood.pitid_username = true ∧
    truthy envGood.pitid_password = true ∧
    login envGood lwSignInFail = Except.error PyError.playwrightError ∧
    run_application envGood ⟨lwSignInFail, true, true, true, fwGood⟩ true
      = (false, [Event.browserLaunched, Event.loginAttempted, Event.browserClosed]) := by
  decide

/-- C9 (amended): with credentials present and the un-guarded goto /
sign-in click succeeding, login catches every further failure and returns a
boolean — in particular, when the login form never appears (the password
wait times out) it returns False; on a False login result run_application
returns False, none of the later stages (navigation, duplicate check, form
fill) runs, and the repository is never mutated.  Failures of the
un-guarded goto / sign-in click instead propagate out of the Authenticator
and are caught only by the Orchestrator's generic handler. -/
theorem login_failures_after_signin_caught (env : Env) (lw : LoginWorld)
    (hu : truthy env.pitid_username = true) (hp : truthy env.pitid_password = true)
    (hg : lw.gotoRaises = false) (hs : lw.signInClickRaises = false) :
    (∃ b, login env lw = Except.ok b) ∧
    (lw.passwordStepRaises = true → login env lw = Except.ok false) ∧
    (∀ (w : RunWorld) (submit : Bool) (rec : Record),
      w.loginW = lw → login env lw = Except.ok false →
      run_application env w submit
        = (false, [Event.browserLaunched, Event.loginAttempted, Event.browserClosed]) ∧
      Event.navigationAttempted ∉ (run_application env w submit).2 ∧
      Event.duplicateCheckAttempted ∉ (run_application env w submit).2 ∧
      Event.formFillAttempted ∉ (run_application env w submit).2 ∧
      ∀ id, Event.markSent id ∉ (run_apply_single env rec w submit).1) := by
  have hlogin : login env lw
      = (if lw.passwordStepRaises then Except.ok false
         else if lw.dashboardReached then Except.ok true
         else if lw.urlHasAlert then Except.ok true else Except.ok false) := by
    unfold login
    rw [if_neg (by simp [hu, hp]), if_neg (by simp [hg]), if_neg (by simp [hs])]
  refine ⟨?_, ?_, ?_⟩
  · rw [hlogin]
    cases hpw : lw.passwordStepRaises <;> cases hdash : lw.dashboardReached <;>
      cases halert : lw.urlHasAlert <;> simp
  · intro hpw
    rw [hlogin, if_pos hpw]
  · intro w submit rec hw hfalse
    have heq : run_application env w submit
        = (false, [Event.browserLaunched, Event.loginAttempted, Event.browserClosed]) :=
      run_application_login_false env w submit (by rw [hw]; exact hfalse)
    refine ⟨heq, ?_, ?_, ?_, ?_⟩
    · rw [heq]
      simp
    · rw [heq]
      simp
    · rw [heq]
      simp
    · intro id hmem
      unfold run_apply_single at hmem
      rcases hfmt : format_applicant_for_bot rec with e | a <;> rw [hfmt] at hmem
      · simp at hmem
      · simp [heq] at hmem

/-- C9 (amended) witness: the login form never appearing yields a caught
False, and the run stops after the login stage. -/
theorem login_failures_after_signin_caught_witness :
    login envGood lwPwFail = Except.ok false ∧
    run_application envGood ⟨lwPwFail, true, true, true, fwGood⟩ true
      = (false, [Event.browserLaunched, Event.loginAttempted, Event.browserClosed]) :=
  ⟨(login_failures_after_signin_caught envGood lwPwFail (by decide) (by decide)
      (by decide) (by decide)).2.1 rfl,
   ((login_failures_after_signin_caught envGood lwPwFail (by decide) (by decide)
      (by decide) (by decide)).2.2
      ⟨lwPwFail, true, true, true, fwGood⟩ true recA1 rfl
      ((login_failures_after_signin_caught envGood lwPwFail (by decide) (by decide)
        (by decide) (by decide)).2.1 rfl)).1⟩

/-- C4: the repository mutation markSent is recorded for an applicant
exactly when that applicant's pipeline returned success and the submit flag
was set; with the submit flag absent the Submit button is never clicked and
no mutation ever happens; a failed pipeline never yields a mutation; and in
a batch the markSent events are exactly those of succeeded applicants with
submit set (conversely whenever no record aborts formatting).
(main.py:637-727, 792-826) -/
theorem mark_sent_iff_success_and_submit (env : Env) (rec : Record) (w : RunWorld)
    (submit : Bool) (a : Applicant) (hfmt : format_applicant_for_bot rec = Except.ok a) :
    (Event.markSent rec.id ∈ (run_apply_single env rec w submit).1 ↔
      ((run_application env w submit).1 = true ∧ submit = true)) ∧
    (submit = false → Event.submitClicked ∉ (run_apply_single env rec w submit).1 ∧
      ∀ id, Event.markSent id ∉ (run_apply_single env rec w submit).1) ∧
    ((run_application env w submit).1 = false →
      ∀ id, Event.markSent id ∉ (run_apply_single env rec w submit).1) ∧
    (∀ (runs : List (Record × RunWorld)) (id : String),
      Event.markSent id ∈ (run_apply_batch env runs submit).1 →
      submit = true ∧ ∃ p ∈ runs, p.1.id = id ∧ (run_application env p.2 submit).1 = true) ∧
    (∀ (runs : List (Record × RunWorld)) (rec2 : Record) (w2 : RunWorld),
      (∀ q ∈ runs, ∃ b, format_applicant_for_bot q.1 = Except.ok b) →
      (rec2, w2) ∈ runs → (run_application env w2 submit).1 = true → submit = true →
      Event.markSent rec2.id ∈ (run_apply_batch env runs submit).1) := by
  have hsingle : (run_apply_single env rec w submit).1
      = (run_application env w submit).2
        ++ (if ((run_application env w submit).1 && submit) = true
            then [Event.markSent rec.id] else []) := by
    unfold run_apply_single
    rw [hfmt]
  refine ⟨?_, ?_, ?_, ?_, ?_⟩
  · rw [hsingle]
    constructor
    · intro hmem
      rcases List.mem_append.mp hmem with h1 | h2
      · exact absurd h1 (run_application_no_markSent env w submit rec.id)
      · by_cases hc : ((run_application env w submit).1 && submit) = true
        · rw [Bool.and_eq_true] at hc
          exact hc
        · rw [if_neg hc] at h2
          simp at h2
    · rintro ⟨h1, h2⟩
      apply List.mem_append.mpr
      right
      rw [if_pos (by rw [h1, h2]; rfl)]
      simp
  · rintro rfl
    constructor
    · intro hmem
      rw [hsingle] at hmem
      rcases List.mem_append.mp hmem with h1 | h2
      · exact run_application_no_submitClicked_dry env w h1
      · rw [if_neg (by simp)] at h2
        simp at h2
    · intro id hmem
      rw [hsingle] at hmem
      rcases List.mem_append.mp hmem with h1 | h2
      · exact run_application_no_markSent env w false id h1
      · rw [if_neg (by simp)] at h2
        simp at h2
  · intro hfail id hmem
    rw [hsingle] at hmem
    rcases List.mem_append.mp hmem with h1 | h2
    · exact run_application_no_markSent env w submit id h1
    · rw [if_neg (by simp [hfail])] at h2
      simp at h2
  · intro runs id hmem
    exact batch_go_markSent_sound env submit id runs 0 0 hmem
  · intro runs rec2 w2 hall hmem hsucc hsub
    subst hsub
    exact batch_go_markSent_complete env runs 0 0 rec2 w2 hall hmem hsucc

/-- C4 witness: the fully successful run with submit marks its applicant;
the same run without submit does not; the navigation-failed run with
submit does not. -/
theorem mark_sent_iff_success_and_submit_witness :
    Event.markSent "A1" ∈ (run_apply_single envGood recA1 rwGood true).1 ∧
    Event.markSent "A1" ∉ (run_apply_single envGood recA1 rwGood false).1 ∧
    Event.markSent "A3" ∉ (run_apply_single envGood recA3 rwNavFail true).1 :=
  ⟨(mark_sent_iff_success_and_submit envGood recA1 rwGood true appA1 (by decide)).1.mpr
      ⟨by decide, rfl⟩,
   ((mark_sent_iff_success_and_submit envGood recA1 rwGood false appA1 (by decide)).2.1
      rfl).2 "A1",
   (mark_sent_iff_success_and_submit envGood recA3 rwNavFail true appA3
      (by decide)).2.2.1 (by decide) "A3"⟩

/-- C3: the batch summary counts correctly only when the submit flag is
set.  main.py:820-823 increments the success counter under
`if success and submit`, so in a dry run successfully completed applicants
are counted neither as success nor failure: a batch of three with one
navigation failure yields summary success:0 failed:1 instead of the claimed
success:2 failed:1; the same batch with submit set does yield success:2
failed:1, and the failed applicant is never marked. -/
theorem dry_run_batch_summary_miscount :
    (run_apply_batch envGood [(recA1, rwGood), (recA3, rwNavFail), (recA1, rwGood)] false).2
      = Except.ok ⟨0, 1⟩ ∧
    (run_apply_batch envGood [(recA1, rwGood), (recA3, rwNavFail), (recA1, rwGood)] false).2
      ≠ Except.ok ⟨2, 1⟩ ∧
    (run_apply_batch envGood [(recA1, rwGood), (recA3, rwNavFail), (recA1, rwGood)] true).2
      = Except.ok ⟨2, 1⟩ ∧
    Event.markSent "A3"
      ∉ (run_apply_batch envGood [(recA1, rwGood), (recA3, rwNavFail), (recA1, rwGood)] true).1 := by
  decide

end PitBot
